import Mathlib

/-!
Verification of the deemon daemon-mediated attachment subsystem.

This file is a shallow embedding of the program in `src/main.ts` (the current
revision, with `--wait`/`--attach` support, exit-code trailers, and the
client-side holdback rule).  The embedding follows the source:

* `getIPCHandle` — address resolution from a command identity.  The md5
  digest is modelled as an abstract function of the concatenated update
  stream (updating an md5 hash with `path`, then `args.toString()`, then
  `cwd` digests exactly the concatenation of the three strings, so the
  digest input is `scopeInput`).
* `onData` — the daemon's bounded output buffer append handler (`bl.append`
  followed by `bl.consume` past the capacity).
* `step`/`runDaemon` — an event-step semantics of `spawnCommand`: child
  output events, accepted connections, per-connection `data` dispatch on
  the first byte (`KILL = 0`, `TALK = 1`), the `bufferStream` end handler
  (replay-then-live handoff), child `close` handling with the `wait` mode
  record, and socket close.  Byte streams written to a client socket are
  logged as typed `Out` entries (`data`, status `banner`, exit-code
  `trailer`); `Ev.drainEnd` marks the moment a replaying `bl.duplicate()`
  stream fires `end`.  Node stream semantics modelled: a `pipe` forwards
  only data events that occur after the pipe is attached, and a
  `bl.duplicate()` snapshot is fixed at the time `TALK` is handled.
* `holdData`/`holdTimer`/`holdClose` — the client's holdback state machine
  (the `socket.on(data)` handler, the 100 ms timer body, and the `close`
  handler in `main`).
* `connectBootstrap` — the client `connect` function (stale-handle
  recovery, attach-only fast failure, launch-and-retry-once).
* `sessionSends` — the client-to-daemon bytes written per connection by
  `main` (command byte first, then the Ctrl-D `KILL` path).
-/

namespace Deemon

/-- Wire command byte: kill the daemon's child process tree. -/
def KILL : Nat := 0

/-- Wire command byte: attach and stream (replay then live tail). -/
def TALK : Nat := 1

/-! ## Command identity and address resolution (`getIPCHandle`) -/

/-- The `Command` interface: executable path, ordered argument list, working
directory. -/
structure Command where
  path : String
  args : List String
  cwd : String
deriving DecidableEq

/-- The comma separator used by JavaScript `Array.prototype.toString`. -/
def commaStr : String := ","

/-- JavaScript `command.args.toString()`: the arguments joined by commas. -/
def argsToString (args : List String) : String := String.intercalate commaStr args

/-- The byte stream fed to the md5 hash in `getIPCHandle`: the three update
calls concatenate `path`, `args.toString()` and `cwd`. -/
def scopeInput (c : Command) : String := c.path ++ argsToString c.args ++ c.cwd

/-- `getIPCHandle` (non-Windows branch): the runtime directory joined with
`daemon-` ++ digest ++ `.sock`.  `digest` abstracts the md5 hex digest of the
update stream; `runtimeDir` abstracts `XDG_RUNTIME_DIR`/tmpdir plus the path
separator. -/
def getIPCHandle (digest : String → String) (runtimeDir : String) (c : Command) : String :=
  runtimeDir ++ "daemon-" ++ digest (scopeInput c) ++ ".sock"

/-! ## The bounded output buffer (`onData` in `spawnCommand`) -/

/-- The buffer capacity used by `spawnCommand` (100 MB in the current
revision; the older `src/main.ts` revision instantiates the same handler
shape with 1 MB). -/
def bufferCap : Nat := 100000000

/-- The `onData` handler: `bl.append(data)`, then if the length exceeds the
capacity, `bl.consume` drops the excess from the front. -/
def onData (cap : Nat) (bl data : List Nat) : List Nat :=
  if cap < (bl ++ data).length then (bl ++ data).drop ((bl ++ data).length - cap)
  else bl ++ data

/-- The most recent `cap`-byte window of a byte sequence. -/
def lastWindow (cap : Nat) (l : List Nat) : List Nat := l.drop (l.length - cap)

theorem lastWindow_nil (cap : Nat) : lastWindow cap [] = [] := by
  simp [lastWindow]

theorem onData_lastWindow (cap : Nat) (p d : List Nat) :
    onData cap (lastWindow cap p) d = lastWindow cap (p ++ d) := by
  have hdrop : p.drop (p.length - cap) ++ d = (p ++ d).drop (p.length - cap) := by
    rw [List.drop_append_of_le_length (Nat.sub_le _ _)]
  unfold onData lastWindow
  rw [hdrop]
  simp only [List.length_drop, List.length_append]
  by_cases h : cap < p.length + d.length - (p.length - cap)
  · rw [if_pos ?hc, List.drop_drop]
    case hc =>
      simpa [List.length_drop, List.length_append] using h
    congr 1
    omega
  · rw [if_neg ?hc]
    case hc =>
      simpa [List.length_drop, List.length_append] using h
    congr 1
    omega

theorem foldl_onData (cap : Nat) (cs : List (List Nat)) (p : List Nat) :
    cs.foldl (onData cap) (lastWindow cap p) = lastWindow cap (p ++ cs.flatten) := by
  induction cs generalizing p with
  | nil => simp
  | cons c cs ih =>
      rw [List.foldl_cons, onData_lastWindow, ih, List.flatten_cons, List.append_assoc]

/-- C8: after every append the buffer length never exceeds the capacity and
the contents are exactly the most recent `cap`-byte window of everything the
child has produced (the whole output while still under capacity).  Stated
for every sequence of appended chunks, hence for the state after each
append. -/
theorem c8_buffer_window (cap : Nat) (chunks : List (List Nat)) :
    chunks.foldl (onData cap) [] = lastWindow cap chunks.flatten ∧
    (chunks.foldl (onData cap) []).length ≤ cap := by
  have h := foldl_onData cap chunks []
  rw [lastWindow_nil, List.nil_append] at h
  refine ⟨h, ?_⟩
  rw [h]
  simp only [lastWindow, List.length_drop]
  omega

/-! ## C3: address resolution -/

/-- The empty string (used for a trivial runtime-directory instantiation). -/
def emptyStr : String := ""

theorem string_ext_of_data {s t : String} (h : s.data = t.data) : s = t := by
  cases s
  cases t
  simp only at h
  rw [h]

/-- C3 counterexample: address resolution is NOT injective on identities.
The md5 updates concatenate `path`, `args.toString()` and `cwd` with no
separator, and `args.toString()` joins arguments with commas, so distinct
identities can feed the identical byte stream to the hash and therefore
receive the identical address whatever the digest computes.  Here
`{path := "ab", args := [], cwd := "c"}` and `{path := "a", args := [],
cwd := "bc"}` collide, as do `args := ["x", "y"]` and `args := ["x,y"]`;
with the identity digest the full handles coincide as well. -/
theorem c3_scope_collision :
    (⟨"ab", [], "c"⟩ : Command) ≠ (⟨"a", [], "bc"⟩ : Command) ∧
    scopeInput ⟨"ab", [], "c"⟩ = scopeInput ⟨"a", [], "bc"⟩ ∧
    (⟨"p", ["x", "y"], "q"⟩ : Command) ≠ (⟨"p", ["x,y"], "q"⟩ : Command) ∧
    scopeInput ⟨"p", ["x", "y"], "q"⟩ = scopeInput ⟨"p", ["x,y"], "q"⟩ ∧
    getIPCHandle id emptyStr ⟨"ab", [], "c"⟩ = getIPCHandle id emptyStr ⟨"a", [], "bc"⟩ := by
  refine ⟨by decide, by decide, by decide, by decide, by decide⟩

/-- C3 (amended): address resolution is a deterministic function of the
identity — equal identities always resolve to the same address — and two
identities receive different addresses whenever their concatenated field
serializations (`path ++ args-joined-by-commas ++ cwd`) differ, provided
the digest is collision-free on those inputs; identities whose
concatenations coincide (see the counterexample) collide regardless of the
digest. -/
theorem c3_address_resolution (digest : String → String) (runtimeDir : String)
    (c1 c2 : Command) :
    (c1 = c2 → getIPCHandle digest runtimeDir c1 = getIPCHandle digest runtimeDir c2) ∧
    (Function.Injective digest → scopeInput c1 ≠ scopeInput c2 →
      getIPCHandle digest runtimeDir c1 ≠ getIPCHandle digest runtimeDir c2) := by
  constructor
  · intro h
    rw [h]
  · intro hinj hne heq
    apply hne
    apply hinj
    apply string_ext_of_data
    have hd := congrArg String.data heq
    simp only [getIPCHandle, String.data_append] at hd
    have h1 := List.append_cancel_right hd
    exact List.append_cancel_left h1

/-- Witness for `c3_address_resolution`: with the identity digest, the
identities `run a` and `run b` have different scope inputs and hence
different addresses. -/
theorem c3_address_resolution_witness :
    getIPCHandle id emptyStr ⟨"a", [], ""⟩ ≠ getIPCHandle id emptyStr ⟨"b", [], ""⟩ :=
  (c3_address_resolution id emptyStr ⟨"a", [], ""⟩ ⟨"b", [], ""⟩).2
    Function.injective_id (by decide)

/-! ## The client holdback state machine (`socket.on(data)` / timer / `close`
in `main`) -/

/-- Client-side holdback state: `lastByte` is the held byte (`null`
initially), `timerOn` records whether a 100 ms flush timer is pending
(a pending `lastByteTimer` that has not been cleared or fired). -/
structure HoldState where
  lastByte : Option Nat
  timerOn : Bool
deriving DecidableEq

/-- The client's `socket.on(data)` handler: clear the pending timer; ignore
empty chunks; flush the previously held byte; hold the chunk's last byte;
when the chunk has at least two bytes, also write the chunk minus its last
byte and start the 100 ms timer. -/
def holdData (s : HoldState) (data : List Nat) : HoldState × List Nat :=
  match data.getLast? with
  | none => ({ s with timerOn := false }, [])
  | some lb =>
      if data.length > 1 then
        (⟨some lb, true⟩, s.lastByte.toList ++ data.dropLast)
      else
        (⟨some lb, false⟩, s.lastByte.toList)

/-- The 100 ms timer body: if a timer is pending it fires, writing the held
byte to standard output; note the source does not reset `lastByte`. -/
def holdTimer (s : HoldState) : HoldState × List Nat :=
  if s.timerOn then ({ s with timerOn := false }, s.lastByte.toList)
  else (s, [])

/-- The client's `socket.on(close)` handler: the process exit code is the
held byte if one is held, else 0. -/
def holdClose (s : HoldState) : Nat :=
  match s.lastByte with
  | some b => b
  | none => 0

/-- Client-visible events: a received data chunk, or the flush timer
firing. -/
inductive CEv where
  | data (chunk : List Nat)
  | timer
deriving DecidableEq

/-- Run the holdback machine over a list of events, collecting the bytes
written to the client's standard output. -/
def runHoldFrom (s : HoldState) : List CEv → HoldState × List Nat
  | [] => (s, [])
  | e :: rest =>
      let p := match e with
        | CEv.data c => holdData s c
        | CEv.timer => holdTimer s
      let q := runHoldFrom p.1 rest
      (q.1, p.2 ++ q.2)

def initHold : HoldState := ⟨none, false⟩

def runHold (evs : List CEv) : HoldState × List Nat := runHoldFrom initHold evs

/-- The bytes the client writes to its standard output over a trace. -/
def clientOutput (evs : List CEv) : List Nat := (runHold evs).2

/-- The client process's exit code when the stream closes after a trace. -/
def clientExit (evs : List CEv) : Nat := holdClose (runHold evs).1

/-- The data chunks received over a trace. -/
def dataOf : List CEv → List (List Nat)
  | [] => []
  | CEv.data c :: rest => c :: dataOf rest
  | CEv.timer :: rest => dataOf rest

theorem holdData_lastByte (s : HoldState) (c : List Nat) :
    ((holdData s c).1).lastByte = c.getLast?.or s.lastByte := by
  unfold holdData
  cases h : c.getLast? with
  | none => simp [Option.or]
  | some lb =>
      by_cases hl : c.length > 1 <;> simp [hl, Option.or]

theorem holdTimer_lastByte (s : HoldState) :
    ((holdTimer s).1).lastByte = s.lastByte := by
  unfold holdTimer
  by_cases h : s.timerOn <;> simp [h]

theorem runHoldFrom_lastByte (evs : List CEv) (s : HoldState) :
    ((runHoldFrom s evs).1).lastByte = ((dataOf evs).flatten.getLast?).or s.lastByte := by
  induction evs generalizing s with
  | nil => simp [runHoldFrom, dataOf, Option.or]
  | cons e rest ih =>
      cases e with
      | data c =>
          simp only [runHoldFrom, dataOf, List.flatten_cons, List.getLast?_append]
          rw [ih, holdData_lastByte]
          cases (dataOf rest).flatten.getLast? <;> cases c.getLast? <;> simp [Option.or]
      | timer =>
          simp only [runHoldFrom, dataOf]
          rw [ih, holdTimer_lastByte]

theorem runHoldFrom_append (s : HoldState) (l1 l2 : List CEv) :
    runHoldFrom s (l1 ++ l2) =
      ((runHoldFrom (runHoldFrom s l1).1 l2).1,
        (runHoldFrom s l1).2 ++ (runHoldFrom (runHoldFrom s l1).1 l2).2) := by
  induction l1 generalizing s with
  | nil => simp [runHoldFrom]
  | cons e rest ih =>
      simp only [List.cons_append, runHoldFrom, List.append_eq]
      rw [ih]
      simp [List.append_assoc]

theorem holdData_timerOn (s : HoldState) (c : List Nat) :
    ((holdData s c).1).timerOn = decide (1 < c.length) := by
  unfold holdData
  cases h : c.getLast? with
  | none =>
      have : c = [] := List.getLast?_eq_none_iff.mp h
      subst this
      simp
  | some lb =>
      by_cases hl : c.length > 1 <;> simp [hl]

/-- C6 counterexample: the claim says a ≈100 ms timer is started on every
receipt, and that a byte the timer flushed is no longer held (so that at
close it is never both emitted as data and reused, and a post-flush close
exits 0).  In the code the timer is only started when a chunk has at least
two bytes — after receiving the single-byte chunk `[5]` no timer is
pending — and a timer fire does not clear `lastByte`: after receiving
`[104, 105]` and letting the timer fire, byte 105 has been written to
standard output as ordinary data, yet a close still exits with code 105
(the claim's reading requires exit code 0 there). -/
theorem c6_counterexample :
    ((runHold [CEv.data [5]]).1).timerOn = false ∧
    clientOutput [CEv.data [104, 105], CEv.timer] = [104, 105] ∧
    clientExit [CEv.data [104, 105], CEv.timer] = 105 := by
  refine ⟨by decide, by decide, by decide⟩

/-- C6 (amended): the client holds back the single most recently received
byte: the exit code at stream close is the last byte of everything received
(or 0 if nothing was received); on a nonempty receipt the previously held
byte is flushed as ordinary output ahead of the chunk's prefix and the
chunk's last byte becomes held; the ≈100 ms timer is (re)started only on
receipts of at least two bytes — a single-byte receipt holds its byte with
no timer pending — and a timer fire writes the held byte as ordinary output
without un-holding it, so the byte is flushed again when more data arrives
and still serves as the exit code at close. -/
theorem c6_holdback (evs : List CEv) (s : HoldState) (chunk : List Nat) :
    clientExit evs = ((dataOf evs).flatten.getLast?).getD 0 ∧
    ((runHoldFrom s (evs ++ [CEv.data chunk])).1).timerOn = decide (1 < chunk.length) ∧
    (chunk ≠ [] →
      (holdData s chunk).2 = s.lastByte.toList ++ chunk.dropLast ∧
      ((holdData s chunk).1).lastByte = chunk.getLast?) ∧
    ((holdTimer s).1).lastByte = s.lastByte ∧
    (s.timerOn = true → (holdTimer s).2 = s.lastByte.toList) := by
  refine ⟨?_, ?_, ?_, holdTimer_lastByte s, ?_⟩
  · unfold clientExit holdClose runHold
    rw [runHoldFrom_lastByte]
    cases h : (dataOf evs).flatten.getLast? <;> simp [initHold, Option.or]
  · rw [runHoldFrom_append]
    simp only [runHoldFrom]
    rw [holdData_timerOn]
  · intro hne
    refine ⟨?_, ?_⟩
    · unfold holdData
      cases h : chunk.getLast? with
      | none => exact absurd (List.getLast?_eq_none_iff.mp h) hne
      | some lb =>
          by_cases hl : chunk.length > 1
          · simp [hl]
          · have h1 : chunk.length = 1 := by
              have := List.length_pos_of_ne_nil hne
              omega
            have : chunk.dropLast = [] := by
              have := List.length_dropLast chunk
              rw [h1] at this
              exact List.length_eq_zero.mp this
            simp [hl, this]
    · rw [holdData_lastByte]
      cases h : chunk.getLast? with
      | none => exact absurd (List.getLast?_eq_none_iff.mp h) hne
      | some lb => simp [Option.or]
  · intro ht
    unfold holdTimer
    simp [ht]

/-- Witness for `c6_holdback`: concrete instantiation with a held byte 7,
a pending timer, and the two-byte receipt `[8, 9]`. -/
theorem c6_holdback_witness :
    (holdData ⟨some 7, true⟩ [8, 9]).2 = (some 7 : Option Nat).toList ++ [8, 9].dropLast ∧
    (holdTimer ⟨some 7, true⟩).2 = (some 7 : Option Nat).toList :=
  ⟨((c6_holdback [] ⟨some 7, true⟩ [8, 9]).2.2.1 (by decide)).1,
    (c6_holdback [] ⟨some 7, true⟩ [8, 9]).2.2.2.2 rfl⟩

/-! ## Client session sends (`main`) and connect bootstrap (`connect`) -/

/-- The `Options` interface (CLI flags). -/
structure Options where
  daemon : Bool
  kill : Bool
  restart : Bool
  detach : Bool
  wait : Bool
  attach : Bool
deriving DecidableEq

/-- Ctrl-C keypress code (detach). -/
def ctrlC : Char := Char.ofNat 3

/-- Ctrl-D keypress code (kill daemon). -/
def ctrlD : Char := Char.ofNat 4

/-- The bytes the interactive client writes to the attached socket after the
initial `TALK`, driven by the keypress handler in `main`: Ctrl-C exits
without sending anything, Ctrl-D sends `KILL` and exits, other keys send
nothing. -/
def keyBytes : List Char → List Nat
  | [] => []
  | k :: rest =>
      if k = ctrlC then []
      else if k = ctrlD then [KILL]
      else keyBytes rest

/-- The client-to-daemon traffic written by `main`, one entry per connection
opened, given the options and the user's keypresses.  `--daemon` runs the
server; `--detach` spawns a daemon without connecting; `--kill` sends the
single `KILL` byte; `--restart` sends `KILL` on a first connection, then
reconnects and continues as an attach; the default attach path sends `TALK`
followed by the keypress-driven bytes. -/
def sessionSends (o : Options) (keys : List Char) : List (List Nat) :=
  if o.daemon then []
  else if o.detach then []
  else if o.kill then [[KILL]]
  else if o.restart then [[KILL], TALK :: keyBytes keys]
  else [TALK :: keyBytes keys]

theorem keyBytes_cases (keys : List Char) : keyBytes keys = [] ∨ keyBytes keys = [KILL] := by
  induction keys with
  | nil => exact Or.inl rfl
  | cons k rest ih =>
      by_cases h1 : k = ctrlC
      · left
        simp only [keyBytes]
        rw [if_pos h1]
      · by_cases h2 : k = ctrlD
        · right
          simp only [keyBytes]
          rw [if_neg h1, if_pos h2]
        · simp only [keyBytes]
          rw [if_neg h1, if_neg h2]
          exact ih

/-- C9 counterexample: the claim says a client never sends any
client-to-daemon traffic after the initial command byte.  In default attach
mode with the user pressing Ctrl-D, the single connection carries the two
bytes `TALK` then `KILL`: the Ctrl-D handler writes a further `KILL` byte on
the same connection that already sent `TALK`. -/
theorem c9_counterexample :
    sessionSends ⟨false, false, false, false, false, false⟩ [Char.ofNat 4] =
      [[TALK, KILL]] := by
  decide

/-- C9 (amended): on every connection the client sends exactly one command
byte (`KILL = 0` or `TALK = 1`) as the first byte; the only further
client-to-daemon traffic is a single `KILL` byte sent on the attached
connection when the user presses Ctrl-D, so every connection's traffic is
`[KILL]`, `[TALK]`, or `[TALK, KILL]`. -/
theorem c9_first_byte (o : Options) (keys : List Char) :
    ∀ msg ∈ sessionSends o keys,
      msg = [KILL] ∨ msg = [TALK] ∨ msg = [TALK, KILL] := by
  intro msg hmsg
  rcases o with ⟨od, ok, orst, odt, ow, oa⟩
  rcases keyBytes_cases keys with h | h <;>
    cases od <;> cases ok <;> cases orst <;> cases odt <;>
    simp [sessionSends, h] at hmsg <;>
    tauto

/-- Witness for `c9_first_byte`: the kill-mode connection carries `[KILL]`. -/
theorem c9_first_byte_witness :
    ([KILL] = [KILL] ∨ [KILL] = [TALK] ∨ [KILL] = [TALK, KILL]) :=
  c9_first_byte ⟨false, true, false, false, false, false⟩ [] [KILL] (by decide)

/-! ### The connect-or-launch bootstrap (`connect` / `spawnDaemon`) -/

/-- Error codes a connection attempt can fail with. -/
inductive ErrCode where
  | enoent
  | econnrefused
  | other (msg : String)
deriving DecidableEq

/-- Observable side effects of the bootstrap. -/
inductive BootAction where
  | connectAttempt
  | unlinkHandle
  | spawnDaemonProc (wait : Bool)
  | delay (ms : Nat)
deriving DecidableEq

/-- Outcome of the bootstrap. -/
inductive BootResult where
  | connected (attempt : Nat)
  | exitNoDaemon (code : Nat)
  | err (e : ErrCode)
deriving DecidableEq

/-- The launch path shared by the recoverable failures: `spawnDaemon`
(forwarding the `--wait` flag), a fixed 200 ms delay, then exactly one
retried connection whose failure propagates. -/
def launchPath (wait : Bool) (unlinked : Bool) (second : Option ErrCode) :
    BootResult × List BootAction :=
  let acts := [BootAction.connectAttempt] ++
    (if unlinked then [BootAction.unlinkHandle] else []) ++
    [BootAction.spawnDaemonProc wait, BootAction.delay 200, BootAction.connectAttempt]
  match second with
  | none => (BootResult.connected 2, acts)
  | some e2 => (BootResult.err e2, acts)

/-- The client `connect` function: try to connect; in attach mode either
recoverable failure is immediately fatal (exit 1); `ECONNREFUSED` deletes
the stale handle and falls through to the launch path; `ENOENT` falls
through to the launch path; any other failure propagates. `first` and
`second` are the outcomes of the two possible connection attempts (`none` =
success). -/
def connectBootstrap (attach wait : Bool) (first second : Option ErrCode) :
    BootResult × List BootAction :=
  match first with
  | none => (BootResult.connected 1, [BootAction.connectAttempt])
  | some e =>
      if attach = true ∧ (e = ErrCode.enoent ∨ e = ErrCode.econnrefused) then
        (BootResult.exitNoDaemon 1, [BootAction.connectAttempt])
      else if e = ErrCode.econnrefused then
        launchPath wait true second
      else if e ≠ ErrCode.enoent then
        (BootResult.err e, [BootAction.connectAttempt])
      else
        launchPath wait false second

/-- C7: the bootstrap classifies a failed first connection as follows:
connection-refused (non-attach) unlinks the stale handle and launches;
no-such-address (non-attach) launches without unlinking; any other failure
propagates with no launch; in attach mode either recoverable failure exits
nonzero immediately without launching; on the launch path the daemon is
spawned (forwarding the wait flag), a fixed 200 ms delay passes, the
connection is retried exactly once (two attempts in total), and a failure
of the retry propagates. -/
theorem c7_connect_bootstrap (wait : Bool) (second : Option ErrCode)
    (msg : String) (e2 : ErrCode) :
    connectBootstrap false wait none second =
      (BootResult.connected 1, [BootAction.connectAttempt]) ∧
    (connectBootstrap false wait (some ErrCode.econnrefused) second).2 =
      [BootAction.connectAttempt, BootAction.unlinkHandle,
        BootAction.spawnDaemonProc wait, BootAction.delay 200,
        BootAction.connectAttempt] ∧
    (connectBootstrap false wait (some ErrCode.enoent) second).2 =
      [BootAction.connectAttempt, BootAction.spawnDaemonProc wait,
        BootAction.delay 200, BootAction.connectAttempt] ∧
    connectBootstrap false wait (some (ErrCode.other msg)) second =
      (BootResult.err (ErrCode.other msg), [BootAction.connectAttempt]) ∧
    connectBootstrap true wait (some ErrCode.econnrefused) second =
      (BootResult.exitNoDaemon 1, [BootAction.connectAttempt]) ∧
    connectBootstrap true wait (some ErrCode.enoent) second =
      (BootResult.exitNoDaemon 1, [BootAction.connectAttempt]) ∧
    (connectBootstrap false wait (some ErrCode.econnrefused) none).1 =
      BootResult.connected 2 ∧
    (connectBootstrap false wait (some ErrCode.econnrefused) (some e2)).1 =
      BootResult.err e2 := by
  cases second <;>
    simp [connectBootstrap, launchPath]

/-! ## The daemon core (`spawnCommand`) as an event-step machine -/

/-- The kind of terminate request the daemon issues: `tree` is the
`treekill(child.pid)` call (the whole process tree), `single` would be a
plain `child.kill()` (not used by the source). -/
inductive KillKind where
  | tree
  | single
deriving DecidableEq

/-- The human-readable status banners `spawnCommand` writes to a client. -/
inductive Banner where
  | spawned
  | attached
  | stopped (code : Option Nat) (signal : Option String)
deriving DecidableEq

/-- One write to a client socket: a chunk of child output, a status banner,
or the single exit-code trailer byte carried by the closing `end`. -/
inductive Out where
  | data (bytes : List Nat)
  | banner (b : Banner)
  | trailer (code : Nat)
deriving DecidableEq

/-- One connection as the daemon sees it.  `drains` is the FIFO of pending
`bl.duplicate()` snapshots piped into the socket whose `end` has not fired
yet; `pipes` is the number of times `child.stdout`/`stderr` have been piped
into this socket (a Node `pipe` forwards each subsequent data event once
per attachment); `inClients` is membership in the `clients` set; `out` is
the log of everything written to the socket. -/
structure Conn where
  id : Nat
  drains : List (List Nat)
  pipes : Nat
  inClients : Bool
  closed : Bool
  out : List Out
deriving DecidableEq

def freshConn (cid : Nat) : Conn := ⟨cid, [], 0, false, false, []⟩

/-- The daemon state owned by `spawnCommand`: the bounded output buffer
`bl`, the connections, the `justSpawned` banner flag, the recorded
`childExitCode`/`childSignal` pair of wait mode (assigned exactly when the
wait branch of the child close handler ran), whether the child has closed,
whether `treekill` has been invoked, whether `server.close()` ran, and the
daemon's own `process.exit` code. -/
structure DaemonState where
  wait : Bool
  buffer : List Nat
  conns : List Conn
  justSpawned : Bool
  pendingExit : Option (Option Nat × Option String)
  childClosed : Bool
  killAction : Option KillKind
  serverClosed : Bool
  exited : Option Nat
deriving DecidableEq

def initDaemon (wait : Bool) : DaemonState :=
  ⟨wait, [], [], true, none, false, none, false, none⟩

/-- Events driving `spawnCommand`: a chunk of child stdout/stderr output, an
accepted connection, a client-to-daemon data chunk (dispatched on its first
byte), the `end` of the oldest pending replay stream of a connection, the
child's `close`, a socket `close`, and the 210 ms `justSpawned` timeout. -/
inductive Ev where
  | childData (chunk : List Nat)
  | connect (cid : Nat)
  | connData (cid : Nat) (chunk : List Nat)
  | drainEnd (cid : Nat)
  | childClose (code : Option Nat) (signal : Option String)
  | sockClose (cid : Nat)
  | spawnedTimeout

def findConn (cs : List Conn) (cid : Nat) : Option Conn :=
  cs.find? (fun c => c.id == cid)

def updateConn (cs : List Conn) (cid : Nat) (f : Conn → Conn) : List Conn :=
  cs.map (fun c => if c.id == cid then f c else c)

/-- `clients.size === 0`: no connection is in the live-client set. -/
def noClients (s : DaemonState) : Bool := s.conns.all (fun c => !c.inClients)

/-- One step of the daemon.  Node stream semantics are modelled faithfully:
a child data event reaches the buffer via `onData` and reaches a socket
once per attached pipe — a connection whose snapshot is still draining has
no pipe attached, so child output produced during the drain reaches only
the buffer; a `TALK` dispatch snapshots the buffer as it is at dispatch
time; the snapshot's bytes land on the socket by the time its `end` handler
runs (modelled as one write at `drainEnd`).  After `process.exit` every
socket is closed and nothing further happens. -/
def step (s : DaemonState) (e : Ev) : DaemonState :=
  if s.exited.isSome then s
  else
    match e with
    | Ev.childData chunk =>
        { s with
          buffer := onData bufferCap s.buffer chunk,
          conns := s.conns.map fun c =>
            if c.closed then c
            else { c with out := c.out ++ List.replicate c.pipes (Out.data chunk) } }
    | Ev.spawnedTimeout => { s with justSpawned := false }
    | Ev.connect cid => { s with conns := s.conns ++ [freshConn cid] }
    | Ev.connData cid chunk =>
        match findConn s.conns cid with
        | none => s
        | some c =>
            if c.closed then s
            else
              match chunk.head? with
              | some 0 => { s with killAction := some KillKind.tree }
              | some 1 =>
                  let upd := fun c' => { c' with drains := c'.drains ++ [s.buffer] }
                  { s with conns := updateConn s.conns cid upd }
              | _ => s
    | Ev.drainEnd cid =>
        match findConn s.conns cid with
        | none => s
        | some c =>
            if c.closed then s
            else
              match c.drains with
              | [] => s
              | snap :: restDrains =>
                  match s.pendingExit with
                  | some (code, sig) =>
                      let ec := code.getD 1
                      { s with
                        conns := s.conns.map fun c' =>
                          if c'.id == cid then
                            { c' with
                              drains := restDrains,
                              out := c'.out ++ [Out.data snap,
                                Out.banner (Banner.stopped code sig), Out.trailer ec],
                              closed := true, inClients := false, pipes := 0 }
                          else if c'.inClients && !c'.closed then
                            { c' with
                              out := c'.out ++ [Out.trailer ec],
                              closed := true, inClients := false, pipes := 0 }
                          else { c' with closed := true },
                        serverClosed := true,
                        exited := some ec }
                  | none =>
                      let b := if s.justSpawned then Banner.spawned else Banner.attached
                      let upd := fun c' =>
                        { c' with
                          drains := restDrains,
                          out := c'.out ++ [Out.data snap, Out.banner b],
                          pipes := c'.pipes + 1, inClients := true }
                      { s with
                        conns := updateConn s.conns cid upd,
                        justSpawned := false }
    | Ev.childClose code sig =>
        if s.wait && noClients s then
          { s with childClosed := true, pendingExit := some (code, sig) }
        else
          let ec := code.getD 1
          { s with
            childClosed := true,
            conns := s.conns.map fun c =>
              if c.inClients && !c.closed then
                { c with
                  out := c.out ++ [Out.trailer ec],
                  closed := true, inClients := false, pipes := 0 }
              else { c with closed := true },
            serverClosed := true,
            exited := some ec }
    | Ev.sockClose cid =>
        let upd := fun c => { c with closed := true, inClients := false, pipes := 0 }
        { s with conns := updateConn s.conns cid upd }

def runDaemon (wait : Bool) (evs : List Ev) : DaemonState :=
  evs.foldl step (initDaemon wait)

/-- The raw child-output bytes delivered on a socket (excluding banners and
the trailer). -/
def dataBytes : List Out → List Nat
  | [] => []
  | Out.data bs :: rest => bs ++ dataBytes rest
  | Out.banner _ :: rest => dataBytes rest
  | Out.trailer _ :: rest => dataBytes rest

/-- The output log of connection `cid`. -/
def connOut (s : DaemonState) (cid : Nat) : List Out :=
  match findConn s.conns cid with
  | some c => c.out
  | none => []

/-- The child-output bytes delivered to connection `cid`. -/
def deliveredData (s : DaemonState) (cid : Nat) : List Nat :=
  dataBytes (connOut s cid)

theorem findConn_updateConn (cs : List Conn) (cid : Nat) (f : Conn → Conn)
    (hf : ∀ c, (f c).id = c.id) :
    findConn (updateConn cs cid f) cid = (findConn cs cid).map f := by
  induction cs with
  | nil => rfl
  | cons c cs ih =>
      simp only [updateConn, findConn, List.map_cons]
      cases hb : (c.id == cid) with
      | true =>
          simp [List.find?_cons, hf, hb]
      | false =>
          simp only [hb, Bool.false_eq_true, if_false, List.find?_cons, hf]
          exact ih

/-! ## Helper lemmas about the child close handler -/

theorem childClose_step (s : DaemonState) (code : Option Nat) (sig : Option String)
    (hrun : s.exited = none)
    (hcase : (s.wait && noClients s) = false) :
    step s (Ev.childClose code sig) =
      { s with
        childClosed := true,
        conns := s.conns.map fun c =>
          if c.inClients && !c.closed then
            { c with
              out := c.out ++ [Out.trailer (code.getD 1)],
              closed := true, inClients := false, pipes := 0 }
          else { c with closed := true },
        serverClosed := true,
        exited := some (code.getD 1) } := by
  simp [step, hrun, hcase]

theorem closeAll_closed (cs : List Conn) (ec : Nat) :
    ∀ c ∈ cs.map (fun c =>
      if c.inClients && !c.closed then
        { c with
          out := c.out ++ [Out.trailer ec],
          closed := true, inClients := false, pipes := 0 }
      else { c with closed := true }), c.closed = true := by
  intro c' hc'
  rw [List.mem_map] at hc'
  obtain ⟨c, _, rfl⟩ := hc'
  by_cases h : (c.inClients && !c.closed) = true <;> simp [h]

theorem mem_closeAll (cs : List Conn) (ec : Nat) (x : Conn)
    (hx : x ∈ cs) (hin : x.inClients = true) (hcl : x.closed = false) :
    ({ x with
      out := x.out ++ [Out.trailer ec],
      closed := true, inClients := false, pipes := 0 } : Conn) ∈
      cs.map (fun c =>
        if c.inClients && !c.closed then
          { c with
            out := c.out ++ [Out.trailer ec],
            closed := true, inClients := false, pipes := 0 }
        else { c with closed := true }) := by
  have hcond : (x.inClients && !x.closed) = true := by rw [hin, hcl]; rfl
  have hm := List.mem_map_of_mem (fun c : Conn =>
    if c.inClients && !c.closed then
      { c with
        out := c.out ++ [Out.trailer ec],
        closed := true, inClients := false, pipes := 0 }
    else { c with closed := true }) hx
  simp only [hcond, if_true] at hm
  exact hm

/-! ## C1, C2, C4, C5, C10 -/

/-- The failing trace for C1: the daemon has buffered `[1, 2]`; a client
connects and sends `TALK`; the child emits byte 7 while the snapshot is
still draining; the replay stream then ends (the handoff point); the child
emits byte 8. -/
def c1trace : List Ev :=
  [Ev.childData [1, 2], Ev.connect 0, Ev.connData 0 [TALK],
    Ev.childData [7], Ev.drainEnd 0, Ev.childData [8]]

/-- C1: evaluation at the failing input.  The attaching client receives the
snapshot `[1, 2]` and the post-handoff byte 8, but byte 7 — produced by the
child after the snapshot was taken, while the snapshot was draining — is
appended to the buffer only and never delivered to the client, because
`child.stdout.pipe(socket)` is attached only when the replay stream ends
and a pipe forwards only data events after attachment.  This contradicts
the claim that no byte produced after the snapshot is dropped. -/
theorem c1_snapshot_drop :
    deliveredData (runDaemon false c1trace) 0 = [1, 2, 8] ∧
    7 ∉ deliveredData (runDaemon false c1trace) 0 ∧
    (runDaemon false c1trace).buffer = [1, 2, 7, 8] := by
  refine ⟨by decide, by decide, by decide⟩

/-- The C2 trace before the late attach: the child produces `chunk`, then
closes with exit code `code` while no client is live. -/
def c2evs1 (chunk : List Nat) (code : Nat) : List Ev :=
  [Ev.childData chunk, Ev.childClose (some code) none]

/-- The C2 trace including the late attach: a client connects, sends
`TALK`, and its replay stream ends. -/
def c2evs2 (chunk : List Nat) (code : Nat) : List Ev :=
  c2evs1 chunk code ++ [Ev.connect 0, Ev.connData 0 [TALK], Ev.drainEnd 0]

/-- C2: in wait mode, when the child closes with zero live clients the
daemon does not exit and keeps the address bound, recording the exit code
and signal; the first client to attach afterwards receives the buffered
output, then the stopped status line, then the exit-code trailer carrying
the recorded code, after which every connection is closed, the server is
closed and the daemon exits with the recorded code. -/
theorem c2_wait_mode (chunk : List Nat) (code : Nat) :
    (runDaemon true (c2evs1 chunk code)).exited = none ∧
    (runDaemon true (c2evs1 chunk code)).serverClosed = false ∧
    (runDaemon true (c2evs1 chunk code)).pendingExit = some (some code, none) ∧
    connOut (runDaemon true (c2evs2 chunk code)) 0 =
      [Out.data (onData bufferCap [] chunk),
        Out.banner (Banner.stopped (some code) none),
        Out.trailer code] ∧
    (∀ c ∈ (runDaemon true (c2evs2 chunk code)).conns, c.closed = true) ∧
    (runDaemon true (c2evs2 chunk code)).serverClosed = true ∧
    (runDaemon true (c2evs2 chunk code)).exited = some code := by
  refine ⟨rfl, rfl, rfl, rfl, ?_, rfl, rfl⟩
  intro c hc
  have hconns : (runDaemon true (c2evs2 chunk code)).conns =
      [⟨0, [], 0, false, true,
        [Out.data (onData bufferCap [] chunk),
          Out.banner (Banner.stopped (some code) none), Out.trailer code]⟩] := rfl
  rw [hconns, List.mem_singleton] at hc
  subst hc
  rfl

/-- C4: when the child closes and the wait-with-zero-clients case does not
apply, every live client receives the exit-code trailer byte equal to the
child's exit code (1 when the child was terminated by a signal with no
numeric code), every connection ends up closed, and the daemon exits with
that same code. -/
theorem c4_child_close_exit (s : DaemonState) (code : Option Nat) (sig : Option String)
    (hrun : s.exited = none)
    (hcase : (s.wait && noClients s) = false) :
    (step s (Ev.childClose code sig)).exited = some (code.getD 1) ∧
    (step s (Ev.childClose code sig)).serverClosed = true ∧
    (∀ c ∈ (step s (Ev.childClose code sig)).conns, c.closed = true) ∧
    (∀ c ∈ s.conns, c.inClients = true → c.closed = false →
      ({ c with
        out := c.out ++ [Out.trailer (code.getD 1)],
        closed := true, inClients := false, pipes := 0 } : Conn) ∈
        (step s (Ev.childClose code sig)).conns) := by
  rw [childClose_step s code sig hrun hcase]
  refine ⟨rfl, rfl, ?_, ?_⟩
  · exact closeAll_closed s.conns (code.getD 1)
  · intro c hc hin hcl
    exact mem_closeAll s.conns (code.getD 1) c hc hin hcl

/-- A daemon state with one live attached client (id 0), used as concrete
input by the witnesses. -/
def liveState : DaemonState :=
  runDaemon false [Ev.childData [9], Ev.connect 0, Ev.connData 0 [TALK], Ev.drainEnd 0]

/-- Witness for `c4_child_close_exit` at the live one-client state. -/
theorem c4_child_close_exit_witness :
    (step liveState (Ev.childClose (some 5) none)).exited = some 5 ∧
    (step liveState (Ev.childClose (some 5) none)).serverClosed = true :=
  ⟨(c4_child_close_exit liveState (some 5) none (by decide) (by decide)).1,
    (c4_child_close_exit liveState (some 5) none (by decide) (by decide)).2.1⟩

/-- The signal name used in the concrete kill scenario. -/
def sigKill : String := "SIGKILL"

/-- C5: a `KILL` command byte from any one open connection invokes the
process-tree terminate (`treekill`, not a plain child kill) and writes no
reply — the connection logs are unchanged; when the killed child
subsequently closes (signal, no numeric code), every live client receives
the exit-code trailer byte 1 and is closed, and the daemon exits with
code 1. -/
theorem c5_kill_dispatch (s : DaemonState) (cid : Nat) (c : Conn) (rest : List Nat)
    (sig : String)
    (hex : s.exited = none)
    (hc : findConn s.conns cid = some c)
    (hopen : c.closed = false)
    (hcase : (s.wait && noClients s) = false) :
    (step s (Ev.connData cid (KILL :: rest))).killAction = some KillKind.tree ∧
    (step s (Ev.connData cid (KILL :: rest))).conns = s.conns ∧
    (step (step s (Ev.connData cid (KILL :: rest)))
        (Ev.childClose none (some sig))).exited = some 1 ∧
    (∀ x ∈ s.conns, x.inClients = true → x.closed = false →
      ({ x with
        out := x.out ++ [Out.trailer 1],
        closed := true, inClients := false, pipes := 0 } : Conn) ∈
        (step (step s (Ev.connData cid (KILL :: rest)))
          (Ev.childClose none (some sig))).conns) := by
  have h1 : step s (Ev.connData cid (KILL :: rest)) =
      { s with killAction := some KillKind.tree } := by
    simp [step, hex, hc, hopen, KILL]
  have h2 := childClose_step { s with killAction := some KillKind.tree } none (some sig)
    hex hcase
  rw [h1, h2]
  refine ⟨rfl, rfl, rfl, ?_⟩
  intro x hx hin hcl
  exact mem_closeAll s.conns 1 x hx hin hcl

/-- Witness for `c5_kill_dispatch` at the live one-client state. -/
theorem c5_kill_dispatch_witness :
    (step liveState (Ev.connData 0 (KILL :: []))).killAction = some KillKind.tree ∧
    (step (step liveState (Ev.connData 0 (KILL :: [])))
        (Ev.childClose none (some sigKill))).exited = some 1 :=
  ⟨(c5_kill_dispatch liveState 0 ⟨0, [], 1, true, false,
      [Out.data [9], Out.banner Banner.spawned]⟩ [] sigKill
      (by decide) (by decide) (by decide) (by decide)).1,
    (c5_kill_dispatch liveState 0 ⟨0, [], 1, true, false,
      [Out.data [9], Out.banner Banner.spawned]⟩ [] sigKill
      (by decide) (by decide) (by decide) (by decide)).2.2.1⟩

/-- C10: the daemon's `data` listener dispatches every chunk on its first
byte for the connection's entire lifetime: on any open connection —
including one already live — a later chunk beginning with `KILL` invokes
the tree kill, and a later chunk beginning with `TALK` queues another full
replay of the current buffer into the same socket; consequently a client
that sends `TALK` twice has the buffered bytes delivered twice. -/
theorem c10_dispatch_lifetime (s : DaemonState) (cid : Nat) (c : Conn) (rest : List Nat)
    (hex : s.exited = none)
    (hc : findConn s.conns cid = some c)
    (hopen : c.closed = false) :
    (step s (Ev.connData cid (KILL :: rest))).killAction = some KillKind.tree ∧
    findConn (step s (Ev.connData cid (TALK :: rest))).conns cid =
      some { c with drains := c.drains ++ [s.buffer] } ∧
    deliveredData (runDaemon false
      [Ev.childData [1, 2], Ev.connect 0, Ev.connData 0 [TALK], Ev.drainEnd 0,
        Ev.connData 0 [TALK], Ev.drainEnd 0]) 0 = [1, 2, 1, 2] := by
  refine ⟨?_, ?_, by decide⟩
  · simp [step, hex, hc, hopen, KILL]
  · have h1 : (step s (Ev.connData cid (TALK :: rest))).conns =
        updateConn s.conns cid (fun c' => { c' with drains := c'.drains ++ [s.buffer] }) := by
      simp [step, hex, hc, hopen, TALK]
    rw [h1, findConn_updateConn s.conns cid
      (fun c' => { c' with drains := c'.drains ++ [s.buffer] }) (fun c' => rfl), hc]
    rfl

/-- Witness for `c10_dispatch_lifetime` at a freshly connected socket. -/
theorem c10_dispatch_lifetime_witness :
    (step (runDaemon false [Ev.connect 0]) (Ev.connData 0 (KILL :: []))).killAction =
      some KillKind.tree :=
  (c10_dispatch_lifetime (runDaemon false [Ev.connect 0]) 0 (freshConn 0) []
    (by decide) (by decide) (by decide)).1

end Deemon
